import Mathlib

/-
Verification of the openrelik-worker-grep task (src/tasks.py) against its
natural-language specification.

The single task entry point `command` (tasks.py, lines 72-159) is embedded
shallowly below.  External collaborators (the block-device mounter, the output
file factory, the spawned grep process, the wall clock and the line counter)
are modelled by an explicit per-input-file environment `FileEnv`: each field
records the outcome the collaborator would produce at the corresponding call
site.  The task body itself is translated statement by statement into explicit
state passing over `RunState`, whose fields record the task's observable
side effects (the mutated base_command list, appended output descriptors,
tracked block devices, umount calls, emitted progress events, argv vectors
passed to Popen, and log records).  Exceptions are modelled with
`Option PyExn` / `Except PyExn` threaded through every step, mirroring
Python's propagation, the `except RuntimeError` handler and the `finally`
block of the source.
-/

namespace Grep

/-- Python exception kinds relevant to tasks.py: `RuntimeError` is the only
class caught by the handler at line 143; `OSError` stands for the
FileNotFoundError / PermissionError family raised by `subprocess.Popen` when
the binary is missing or unexecutable; `TypeError` is raised by `str.join`
on a non-string item; `KeyError` is what a mapping lookup failure would
raise (it is never actually raised by this code, which uses `dict.get`). -/
inductive PyExn
  | runtimeError (msg : String)
  | osError (msg : String)
  | typeError (msg : String)
  | keyError (key : String)
  deriving DecidableEq, Repr

/-- A log record emitted through the bound logger. -/
inductive LogMsg
  | debug (msg : String)
  | error (msg : String)
  | info (msg : String)
  deriving DecidableEq, Repr

/-- One input file descriptor as supplied by `get_input_files`: the `path`
and `display_name` keys read by the task, plus the outcome of the external
`is_disk_image` capability probe on this descriptor (tasks.py line 106). -/
structure InputFile where
  path : String
  display_name : String
  is_disk_image : Bool
  deriving DecidableEq, Repr

/-- The task configuration mapping: `task_config.get("regex")` yields `none`
when the key is absent (no exception), and
`task_config.get("mount_disk_images", False)` is modelled with the default
already applied (tasks.py lines 97, 100). -/
structure TaskConfig where
  regex : Option String
  mount_disk_images : Bool
  deriving DecidableEq, Repr

/-- The handle returned by `create_output_file`; `to_dict()` is modelled as
the handle itself (tasks.py lines 118-121, 142). -/
structure OutputFile where
  path : String
  display_name : String
  deriving DecidableEq, Repr

/-- A `BlockDevice(input_file_path, min_partition_size=1)` handle
(tasks.py line 107); only its `image_path` is observable here. -/
structure BlockDevice where
  image_path : String
  deriving DecidableEq, Repr

/-- Environment for the processing of one input file: the outcome of each
external call made in the loop body, in the order the body performs them.
`polls` lists, for every iteration of the progress loop in which
`process.poll()` returned `None`, the `count_file_lines` reading and the
elapsed wall-clock seconds at that tick; `exitCode` is the status
`process.poll()` returns once the child has exited.  The task never reads
`exitCode` (the poll result is only compared with `None` at line 128). -/
structure FileEnv where
  setupExn : Option PyExn
  mountResult : Except PyExn (List String)
  outPath : String
  spawnExn : Option PyExn
  polls : List (Nat × ℚ)
  exitCode : Int

/-- Observable state of one task invocation: the (mutable!) `base_command`
list, the accumulated `output_files`, the `disks_mounted` tracking list, the
sequence of `umount()` calls issued, the progress events sent with
`self.send_event` as (extracted_strings, rate) pairs, the argv vectors passed
to `subprocess.Popen`, and the log records. -/
structure RunState where
  base_command : List String
  output_files : List OutputFile
  disks_mounted : List BlockDevice
  umounts : List String
  events : List (Nat × Int)
  spawned : List (List String)
  logs : List LogMsg
  deriving Repr

/-- State at task start: `output_files = []` (line 96), `disks_mounted = []`
(line 102), and no external effect has happened yet. -/
def initState (base : List String) : RunState :=
  ⟨base, [], [], [], [], [], []⟩

/-- The structured payload built by `create_task_result` (lines 154-159);
`meta` is always the empty mapping and is omitted. -/
structure TaskResult where
  output_files : List OutputFile
  workflow_id : String
  command : String
  deriving DecidableEq, Repr

/-- Python `int()` applied to a rational: truncation toward zero. -/
def pyInt (q : ℚ) : Int := if 0 ≤ q then ⌊q⌋ else ⌈q⌉

/-- The throughput computation of tasks.py lines 131-135:
`int(grep_matches / duration.total_seconds()) if duration.total_seconds() > 0
else 0`. -/
def rate (matchCount : Nat) (elapsedSeconds : ℚ) : Int :=
  if 0 < elapsedSeconds then pyInt ((matchCount : ℚ) / elapsedSeconds) else 0

/-- The progress events produced by the polling loop (lines 128-140), one per
tick at which `process.poll()` was still `None`: the pair sent with
`self.send_event("task-progress", ...)`, namely the line count and the rate
derived from it and the elapsed seconds at that tick. -/
def superviseEvents (polls : List (Nat × ℚ)) : List (Nat × Int) :=
  polls.map (fun p => (p.1, rate p.1 p.2))

/-- The polling loop of lines 128-140 as an explicit loop over an abstract
`poll` function: at tick `i`, if `poll i` reports an exit status the loop
stops at once and returns it; otherwise the loop samples `counts i` lines,
emits one progress event, sleeps, and continues at tick `i + 1`.  `fuel`
bounds the number of iterations (the Python loop has no bound; every run in
which the child eventually exits is captured by a large enough fuel, and the
fuel-exhausted marker `none` never occurs in those runs). -/
def superviseLoop (poll : Nat → Option Int) (counts : Nat → Nat) (clock : Nat → ℚ) :
    Nat → Nat → List (Nat × Int) × Option Int
  | 0, _ => ([], none)
  | fuel + 1, i =>
    match poll i with
    | some c => ([], some c)
    | none =>
      let r := superviseLoop poll counts clock fuel (i + 1)
      ((counts i, rate (counts i) (clock i)) :: r.1, r.2)

/-- A child process that is still running at the first `k` polls and whose
exit status `code` is available from poll `k` on (the status, once
available, stays available). -/
def pollTrace (k : Nat) (code : Int) (n : Nat) : Option Int :=
  if n < k then none else some code

/-- The tick indices `i, i+1, ..., i+d-1`. -/
def tickIndices : Nat → Nat → List Nat
  | _, 0 => []
  | i, d + 1 => i :: tickIndices (i + 1) d

/-- The message of the `TypeError` raised by
`" ".join(["grep", "-aEi", None])` when the regex key is absent. -/
def joinMsg : String := "sequence item 2: expected str instance, NoneType found"

/-- Python `sep.join(items)` for a list of strings. -/
def pyJoinStrings (sep : String) : List String → String
  | [] => ""
  | s :: rest => rest.foldl (fun acc x => acc ++ sep ++ x) s

/-- The output handle allocated at lines 118-121:
`create_output_file(output_path, display_name=input_file.get("display_name")
+ ".grep")`. -/
def outEntry (f : InputFile) (fe : FileEnv) : OutputFile :=
  ⟨fe.outPath, f.display_name ++ ".grep"⟩

/-- Lines 118-142: allocate the output handle, call `subprocess.Popen` with
the finalized argv (recording it; a spawn failure raises here), run the
polling loop, and append the handle to `output_files`. -/
def spawnAndSupervise (st : RunState) (cmd : List String) (out : OutputFile) (fe : FileEnv) :
    RunState × Option PyExn :=
  let st := { st with spawned := st.spawned ++ [cmd] }
  match fe.spawnExn with
  | some e => (st, some e)
  | none =>
    let st := { st with events := st.events ++ superviseEvents fe.polls }
    ({ st with output_files := st.output_files ++ [out] }, none)

/-- The `try` body of one loop iteration (lines 105-142).  For a disk-image
input with mounting enabled: `bd.setup()` (may raise), `bd.mount()` (may
raise), `disks_mounted.append(bd)` (line 110), then the in-place mutation of
`base_command` with `"-R"` and every mountpoint suffixed with `"/"` (lines
111-113), and `command = base_command` (line 114).  Otherwise
`command = base_command + [input_file.get("path")]` (line 116).  Then spawn
and supervise. -/
def iterBody (mount_disk_images : Bool) (st : RunState) (f : InputFile) (fe : FileEnv) :
    RunState × Option PyExn :=
  if mount_disk_images && f.is_disk_image then
    match fe.setupExn with
    | some e => (st, some e)
    | none =>
      match fe.mountResult with
      | Except.error e => (st, some e)
      | Except.ok mountpoints =>
        let st := { st with disks_mounted := st.disks_mounted ++ [BlockDevice.mk f.path] }
        let st := { st with
          base_command := st.base_command ++ ["-R"] ++ mountpoints.map (fun mp => mp ++ "/") }
        spawnAndSupervise st st.base_command (outEntry f fe) fe
  else
    spawnAndSupervise st (st.base_command ++ [f.path]) (outEntry f fe) fe

/-- The record logged by the handler at line 144. -/
def errorLogMsg (msg : String) : LogMsg :=
  LogMsg.error ("Error openrelik-worker-grep encountered: " ++ msg)

/-- The `except RuntimeError as e:` clause (lines 143-144): a RuntimeError
is swallowed and logged; any other exception keeps propagating. -/
def handleExc (st : RunState) : Option PyExn → RunState × Option PyExn
  | some (PyExn.runtimeError msg) =>
    ({ st with logs := st.logs ++ [errorLogMsg msg] }, none)
  | e => (st, e)

/-- The `finally` clause (lines 145-149): for every block device currently in
`disks_mounted` (which is never cleared across iterations), log and call
`umount()`. -/
def finallyUnmount (st : RunState) : RunState :=
  { st with
    logs := st.logs ++ st.disks_mounted.map (fun bd => LogMsg.debug ("Unmounting image " ++ bd.image_path)),
    umounts := st.umounts ++ st.disks_mounted.map (fun bd => bd.image_path) }

/-- One full iteration of the per-input-file loop: `try` body, then the
`except RuntimeError` handler, then the `finally` unmount loop; the second
component is the exception still propagating, if any. -/
def iterate (mount_disk_images : Bool) (st : RunState) (f : InputFile) (fe : FileEnv) :
    RunState × Option PyExn :=
  let r := iterBody mount_disk_images st f fe
  let h := handleExc r.1 r.2
  (finallyUnmount h.1, h.2)

/-- The `for input_file in input_files:` loop (lines 103-149), processing
files strictly sequentially; an exception still propagating after an
iteration's `finally` clause aborts the remaining iterations and the whole
task. -/
def runLoop (mount_disk_images : Bool) (fenv : Nat → FileEnv) :
    List InputFile → Nat → RunState → RunState × Option PyExn
  | [], _, st => (st, none)
  | f :: rest, i, st =>
    match iterate mount_disk_images st f (fenv i) with
    | (st1, none) => runLoop mount_disk_images fenv rest (i + 1) st1
    | (st1, some e) => (st1, some e)

/-- The task entry point `command` (lines 72-159).  `input_files` is the
list returned by `get_input_files`.  Line 97 builds
`base_command = ["grep", "-aEi", task_config.get("regex")]`; when the regex
key is absent the `get` yields `None` and line 98's
`" ".join(base_command)` raises a `TypeError` before any input file is
touched — this is the first branch.  Otherwise the loop runs; if an
exception is still propagating afterwards the invocation raises, else the
empty-result condition is logged when applicable (lines 151-152) and the
result of `create_task_result` (lines 154-159) is returned.  The returned
`RunState` records the observable side effects in either case. -/
def command (task_config : TaskConfig) (input_files : List InputFile) (workflow_id : String)
    (fenv : Nat → FileEnv) : RunState × Except PyExn TaskResult :=
  match task_config.regex with
  | none => (initState ["grep", "-aEi"], Except.error (PyExn.typeError joinMsg))
  | some rgx =>
    let base_command := ["grep", "-aEi", rgx]
    let base_command_string := pyJoinStrings " " base_command
    match runLoop task_config.mount_disk_images fenv input_files 0 (initState base_command) with
    | (st, some e) => (st, Except.error e)
    | (st, none) =>
      let st :=
        if st.output_files.isEmpty then
          { st with logs := st.logs ++ [LogMsg.info "openrelik-worker-grep task yielded no results!"] }
        else st
      (st, Except.ok ⟨st.output_files, workflow_id, base_command_string⟩)

/-- Specification-side predicate: the `try` body for this input file under
this environment raises no exception (proved equivalent to the body below in
`iterBody_exn_none_iff`). -/
def fileSucceeds (m : Bool) (f : InputFile) (fe : FileEnv) : Bool :=
  (if m && f.is_disk_image then
      fe.setupExn.isNone && fe.mountResult.toOption.isSome
    else true)
    && fe.spawnExn.isNone

/-- Specification-side list: the output entries expected for the inputs whose
body raises no exception, in input order, starting at loop index `i`. -/
def expectedOutputs (m : Bool) (fenv : Nat → FileEnv) : List InputFile → Nat → List OutputFile
  | [], _ => []
  | f :: rest, i =>
    if fileSucceeds m f (fenv i) then
      outEntry f (fenv i) :: expectedOutputs m fenv rest (i + 1)
    else expectedOutputs m fenv rest (i + 1)

/-- Number of inputs (from loop index `i` on) whose body raises no
exception. -/
def successCount (m : Bool) (fenv : Nat → FileEnv) : List InputFile → Nat → Nat
  | [], _ => 0
  | f :: rest, i =>
    (if fileSucceeds m f (fenv i) then 1 else 0) + successCount m fenv rest (i + 1)

/-- What remains of an exception after the `except RuntimeError` clause. -/
def caughtByExcept : Option PyExn → Option PyExn
  | some (PyExn.runtimeError _) => none
  | e => e

/-! ### Concrete fixtures used by witnesses and counterexamples -/

/-- A disk-image input file. -/
def imgFile : InputFile := ⟨"/in/image.dd", "image.dd", true⟩

/-- A plain text input file. -/
def txtFile : InputFile := ⟨"/in/a.txt", "a.txt", false⟩

/-- A second plain text input file. -/
def txtFile2 : InputFile := ⟨"/in/b.txt", "b.txt", false⟩

/-- Environment in which a disk image sets up and mounts at `/mnt/p1` and
everything else succeeds (child exits immediately, no ticks observed). -/
def envOkImg : FileEnv := ⟨none, Except.ok ["/mnt/p1"], "/out/0", none, [], 0⟩

/-- Environment in which every external call succeeds for a plain file. -/
def envOkTxt : FileEnv := ⟨none, Except.ok [], "/out/1", none, [], 0⟩

/-- Environment in which `bd.setup()` raises a RuntimeError. -/
def envSetupFail : FileEnv := ⟨some (PyExn.runtimeError "setup failed"), Except.ok [], "/out/0", none, [], 0⟩

/-- Environment in which `subprocess.Popen` raises the OSError produced by a
missing search binary. -/
def envSpawnOSErr : FileEnv := ⟨none, Except.ok [], "/out/0", some (PyExn.osError "FileNotFoundError: grep"), [], 0⟩

/-- File environments for the two-file run: a disk image first, then a plain
file. -/
def fenvC3 : Nat → FileEnv := fun i => if i = 0 then envOkImg else envOkTxt

/-- File environments in which every file's spawn fails with an OSError. -/
def fenvSpawnFail : Nat → FileEnv := fun _ => envSpawnOSErr

/-- File environments in which every disk-image setup raises a
RuntimeError. -/
def fenvSetupFail : Nat → FileEnv := fun _ => envSetupFail

/-- File environments in which every file succeeds as a plain file. -/
def fenvOkTxt : Nat → FileEnv := fun _ => envOkTxt

/-- Configuration with a regex and disk-image mounting enabled. -/
def cfgTrue : TaskConfig := ⟨some "[a-f][0-9]+", true⟩

/-- Configuration with a regex and disk-image mounting disabled. -/
def cfgFalse : TaskConfig := ⟨some "[a-f][0-9]+", false⟩

/-- Configuration from which the required regex key is absent. -/
def cfgNoRegex : TaskConfig := ⟨none, true⟩

/-! ### Helper lemmas about one loop iteration -/

theorem iterBody_exn_none_iff (m : Bool) (st : RunState) (f : InputFile) (fe : FileEnv) :
    (iterBody m st f fe).2 = none ↔ fileSucceeds m f fe = true := by
  rcases fe with ⟨se, mr, op, sp, polls, ec⟩
  unfold iterBody spawnAndSupervise fileSucceeds
  by_cases hd : (m && f.is_disk_image) = true <;>
    rcases se with _ | e <;> rcases mr with e' | mps <;> rcases sp with _ | e2 <;>
      simp [hd, Except.toOption]

theorem iterBody_outputs (m : Bool) (st : RunState) (f : InputFile) (fe : FileEnv) :
    (iterBody m st f fe).1.output_files =
      st.output_files ++ (if (iterBody m st f fe).2 = none then [outEntry f fe] else []) := by
  rcases fe with ⟨se, mr, op, sp, polls, ec⟩
  unfold iterBody spawnAndSupervise
  by_cases hd : (m && f.is_disk_image) = true <;>
    rcases se with _ | e <;> rcases mr with e' | mps <;> rcases sp with _ | e2 <;>
      simp [hd]

theorem iterBody_logs (m : Bool) (st : RunState) (f : InputFile) (fe : FileEnv) :
    (iterBody m st f fe).1.logs = st.logs := by
  rcases fe with ⟨se, mr, op, sp, polls, ec⟩
  unfold iterBody spawnAndSupervise
  by_cases hd : (m && f.is_disk_image) = true <;>
    rcases se with _ | e <;> rcases mr with e' | mps <;> rcases sp with _ | e2 <;>
      simp [hd]

theorem handleExc_outputs (st : RunState) (e : Option PyExn) :
    (handleExc st e).1.output_files = st.output_files := by
  rcases e with _ | e
  · rfl
  · rcases e <;> rfl

theorem handleExc_exn (st : RunState) (e : Option PyExn) :
    (handleExc st e).2 = caughtByExcept e := by
  rcases e with _ | e
  · rfl
  · rcases e <;> rfl

theorem caughtByExcept_none_iff (e : Option PyExn) :
    caughtByExcept e = none ↔ e = none ∨ ∃ msg, e = some (PyExn.runtimeError msg) := by
  rcases e with _ | e
  · simp [caughtByExcept]
  · rcases e <;> simp [caughtByExcept]

theorem iterate_exn (m : Bool) (st : RunState) (f : InputFile) (fe : FileEnv) :
    (iterate m st f fe).2 = caughtByExcept (iterBody m st f fe).2 := by
  simp [iterate, handleExc_exn]

theorem iterate_outputs (m : Bool) (st : RunState) (f : InputFile) (fe : FileEnv) :
    (iterate m st f fe).1.output_files =
      st.output_files ++ (if (iterBody m st f fe).2 = none then [outEntry f fe] else []) := by
  have h1 : (iterate m st f fe).1.output_files = (handleExc (iterBody m st f fe).1 (iterBody m st f fe).2).1.output_files := rfl
  rw [h1, handleExc_outputs, iterBody_outputs]

/-! ### Helper lemmas about the whole loop -/

theorem runLoop_none_outputs (m : Bool) (fenv : Nat → FileEnv) :
    ∀ (inputs : List InputFile) (i : Nat) (st st1 : RunState),
      runLoop m fenv inputs i st = (st1, none) →
      st1.output_files = st.output_files ++ expectedOutputs m fenv inputs i := by
  intro inputs
  induction inputs with
  | nil =>
    intro i st st1 h
    simp only [runLoop, Prod.mk.injEq] at h
    rw [← h.1]
    simp [expectedOutputs]
  | cons f rest ih =>
    intro i st st1 h
    simp only [runLoop] at h
    rcases hit : iterate m st f (fenv i) with ⟨st2, ex⟩
    rw [hit] at h
    cases ex with
    | some e => simp at h
    | none =>
      have hout : st2.output_files =
          st.output_files ++ (if (iterBody m st f (fenv i)).2 = none then [outEntry f (fenv i)] else []) := by
        have := iterate_outputs m st f (fenv i)
        rw [hit] at this
        exact this
      have hrec := ih (i + 1) st2 st1 h
      rw [hrec, hout]
      simp only [expectedOutputs]
      by_cases hs : fileSucceeds m f (fenv i) = true
      · rw [if_pos ((iterBody_exn_none_iff m st f (fenv i)).mpr hs), if_pos hs]
        simp
      · rw [if_neg (fun hc => hs ((iterBody_exn_none_iff m st f (fenv i)).mp hc)),
            if_neg hs]
        simp

theorem expectedOutputs_length (m : Bool) (fenv : Nat → FileEnv) :
    ∀ (inputs : List InputFile) (i : Nat),
      (expectedOutputs m fenv inputs i).length = successCount m fenv inputs i := by
  intro inputs
  induction inputs with
  | nil => intro i; rfl
  | cons f rest ih =>
    intro i
    simp only [expectedOutputs, successCount]
    split
    · simp only [List.length_cons, ih (i + 1)]
      omega
    · simp [ih (i + 1)]

theorem successCount_le (m : Bool) (fenv : Nat → FileEnv) :
    ∀ (inputs : List InputFile) (i : Nat),
      successCount m fenv inputs i ≤ inputs.length := by
  intro inputs
  induction inputs with
  | nil => intro i; simp [successCount]
  | cons f rest ih =>
    intro i
    simp only [successCount, List.length_cons]
    have := ih (i + 1)
    split <;> omega

/-- Unpacking the success branch of `command`: a returned `Except.ok` result
carries exactly the loop's accumulated output files and the command string
joined from the original base command. -/
theorem command_ok (cfg : TaskConfig) (rgx : String) (inputs : List InputFile) (wid : String)
    (fenv : Nat → FileEnv) (res : TaskResult)
    (hr : cfg.regex = some rgx)
    (h : (command cfg inputs wid fenv).2 = Except.ok res) :
    res.output_files =
      (runLoop cfg.mount_disk_images fenv inputs 0 (initState ["grep", "-aEi", rgx])).1.output_files ∧
    res.command = pyJoinStrings " " ["grep", "-aEi", rgx] ∧
    (runLoop cfg.mount_disk_images fenv inputs 0 (initState ["grep", "-aEi", rgx])).2 = none := by
  unfold command at h
  rw [hr] at h
  simp only at h
  rcases hrl : runLoop cfg.mount_disk_images fenv inputs 0 (initState ["grep", "-aEi", rgx]) with ⟨st, ex⟩
  rw [hrl] at h
  cases ex with
  | some e => simp at h
  | none =>
    simp only [Except.ok.injEq] at h
    subst h
    refine ⟨?_, rfl, rfl⟩
    split <;> rfl

/-! ### Helper lemmas about the polling loop -/

theorem tickIndices_length : ∀ (i d : Nat), (tickIndices i d).length = d := by
  intro i d
  induction d generalizing i with
  | zero => rfl
  | succ d ih => simp [tickIndices, ih]

theorem superviseLoop_pollTrace (code : Int) (counts : Nat → Nat) (clock : Nat → ℚ) :
    ∀ (d i fuel : Nat), d < fuel →
      superviseLoop (pollTrace (i + d) code) counts clock fuel i =
        (superviseEvents ((tickIndices i d).map fun j => (counts j, clock j)), some code) := by
  intro d
  induction d with
  | zero =>
    intro i fuel hf
    cases fuel with
    | zero => omega
    | succ f =>
      simp [superviseLoop, pollTrace, tickIndices, superviseEvents]
  | succ d ih =>
    intro i fuel hf
    cases fuel with
    | zero => omega
    | succ f =>
      have hpoll : pollTrace (i + (d + 1)) code i = none := by
        simp only [pollTrace, if_pos (by omega : i < i + (d + 1))]
      have harg : i + (d + 1) = (i + 1) + d := by omega
      simp only [superviseLoop, hpoll]
      rw [harg, ih (i + 1) f (by omega)]
      simp [tickIndices, superviseEvents]

/-! ### Helper lemmas: the exit status is never read -/

theorem iterate_exitCode (m : Bool) (st : RunState) (f : InputFile) (fe : FileEnv) (c : Int) :
    iterate m st f { fe with exitCode := c } = iterate m st f fe := by
  cases fe
  rfl

theorem runLoop_exitCode (m : Bool) (fenv : Nat → FileEnv) (g : Nat → Int) :
    ∀ (inputs : List InputFile) (i : Nat) (st : RunState),
      runLoop m (fun j => { fenv j with exitCode := g j }) inputs i st =
        runLoop m fenv inputs i st := by
  intro inputs
  induction inputs with
  | nil => intro i st; rfl
  | cons f rest ih =>
    intro i st
    simp only [runLoop]
    rw [iterate_exitCode]
    rcases hit : iterate m st f (fenv i) with ⟨st1, ex⟩
    cases ex with
    | none => simp [ih]
    | some e => simp

/-! ### The claims -/

/-- C1: the claim states that every mounted device is unmounted exactly once
before the task returns.  The code violates the "exactly once" part: the
`finally` cleanup loop sits inside the per-input-file loop and
`disks_mounted` is never cleared, so a device mounted for an earlier input
file is unmounted again after every later iteration.  Concretely, with a
successfully mounted disk image followed by one plain file, the image's
device receives two `umount()` calls. -/
theorem C1_device_unmounted_twice :
    (command cfgTrue [imgFile, txtFile] "wf" fenvC3).1.umounts =
      ["/in/image.dd", "/in/image.dd"] ∧
    (command cfgTrue [imgFile, txtFile] "wf" fenvC3).1.umounts.length = 2 :=
  ⟨rfl, rfl⟩

/-- C2 (counterexample): the claim states that any failure while preparing,
mounting or spawning for a single input file — including a missing or
unexecutable search binary — is caught at the per-input-file boundary,
logged, and only skips that file.  But the handler catches only
`RuntimeError`; the OSError raised by `subprocess.Popen` for a missing grep
binary propagates: the invocation raises, nothing is logged, and the second
input file is never processed (only one Popen argv was ever recorded). -/
theorem C2_counterexample :
    (command cfgFalse [txtFile, txtFile2] "wf" fenvSpawnFail).2 =
      Except.error (PyExn.osError "FileNotFoundError: grep") ∧
    (command cfgFalse [txtFile, txtFile2] "wf" fenvSpawnFail).1.spawned =
      [["grep", "-aEi", "[a-f][0-9]+", "/in/a.txt"]] ∧
    (command cfgFalse [txtFile, txtFile2] "wf" fenvSpawnFail).1.output_files = [] ∧
    (command cfgFalse [txtFile, txtFile2] "wf" fenvSpawnFail).1.logs = [] :=
  ⟨rfl, rfl, rfl, rfl⟩

/-- C2 (amended): a failure that raises `RuntimeError` while processing one
input file is caught at the per-input-file boundary, logged, and causes only
that file to be skipped (no output entry); the loop then continues with the
remaining input files.  Failures of other exception classes are not caught
(see the counterexample). -/
theorem C2_runtime_error_boundary (m : Bool) (st : RunState) (f : InputFile)
    (fenv : Nat → FileEnv) (i : Nat) (msg : String) (rest : List InputFile)
    (h : (iterBody m st f (fenv i)).2 = some (PyExn.runtimeError msg)) :
    (iterate m st f (fenv i)).2 = none ∧
    (iterate m st f (fenv i)).1.output_files = st.output_files ∧
    errorLogMsg msg ∈ (iterate m st f (fenv i)).1.logs ∧
    runLoop m fenv (f :: rest) i st =
      runLoop m fenv rest (i + 1) (iterate m st f (fenv i)).1 := by
  have hexn : (iterate m st f (fenv i)).2 = none := by
    rw [iterate_exn, h]
    rfl
  have hout : (iterate m st f (fenv i)).1.output_files = st.output_files := by
    rw [iterate_outputs, h]
    simp
  have hlog : errorLogMsg msg ∈ (iterate m st f (fenv i)).1.logs := by
    have h1 : (iterate m st f (fenv i)).1 =
        finallyUnmount (handleExc (iterBody m st f (fenv i)).1 (iterBody m st f (fenv i)).2).1 := rfl
    rw [h1, h]
    simp [handleExc, finallyUnmount]
  refine ⟨hexn, hout, hlog, ?_⟩
  simp only [runLoop]
  rcases hit : iterate m st f (fenv i) with ⟨st2, ex⟩
  rw [hit] at hexn
  replace hexn : ex = none := hexn
  subst hexn
  rfl

/-- C2 (witness): a concrete RuntimeError — disk-image setup failing — is
caught, logged, skips only that file, and the loop goes on. -/
theorem C2_runtime_error_boundary_witness :
    (iterate true (initState ["grep", "-aEi", "[a-f][0-9]+"]) imgFile (fenvSetupFail 0)).2 = none ∧
    (iterate true (initState ["grep", "-aEi", "[a-f][0-9]+"]) imgFile (fenvSetupFail 0)).1.output_files =
      (initState ["grep", "-aEi", "[a-f][0-9]+"]).output_files ∧
    errorLogMsg "setup failed" ∈
      (iterate true (initState ["grep", "-aEi", "[a-f][0-9]+"]) imgFile (fenvSetupFail 0)).1.logs ∧
    runLoop true fenvSetupFail [imgFile, txtFile] 0 (initState ["grep", "-aEi", "[a-f][0-9]+"]) =
      runLoop true fenvSetupFail [txtFile] 1
        (iterate true (initState ["grep", "-aEi", "[a-f][0-9]+"]) imgFile (fenvSetupFail 0)).1 :=
  C2_runtime_error_boundary true (initState ["grep", "-aEi", "[a-f][0-9]+"]) imgFile
    fenvSetupFail 0 "setup failed" [txtFile] rfl

/-- C3: the claim states that building the search command has no side
effects and that a non-disk-image input is always executed with exactly the
base command plus that file's path.  The code violates this: mounting a disk
image mutates the shared `base_command` list in place (lines 111-113), so a
plain file processed after a mounted image is executed with an argv that
still carries `-R` and the image's mountpoint root. -/
theorem C3_base_command_mutated :
    (command cfgTrue [imgFile, txtFile] "wf" fenvC3).1.spawned =
      [["grep", "-aEi", "[a-f][0-9]+", "-R", "/mnt/p1/"],
       ["grep", "-aEi", "[a-f][0-9]+", "-R", "/mnt/p1/", "/in/a.txt"]] ∧
    (["grep", "-aEi", "[a-f][0-9]+", "-R", "/mnt/p1/", "/in/a.txt"] : List String) ≠
      ["grep", "-aEi", "[a-f][0-9]+", "/in/a.txt"] :=
  ⟨rfl, fun h => by simpa using congrArg List.length h⟩

/-- C4: for every invocation that returns a result, the output entries are
exactly those of the input files whose processing raised no exception, in
original input order, each named with the input's display name suffixed by
".grep" (this is the content of `expectedOutputs`); their number equals the
number of non-raising input files and is at most the number of inputs. -/
theorem C4_result_outputs (cfg : TaskConfig) (inputs : List InputFile) (wid : String)
    (fenv : Nat → FileEnv) (res : TaskResult)
    (h : (command cfg inputs wid fenv).2 = Except.ok res) :
    res.output_files = expectedOutputs cfg.mount_disk_images fenv inputs 0 ∧
    res.output_files.length = successCount cfg.mount_disk_images fenv inputs 0 ∧
    res.output_files.length ≤ inputs.length := by
  rcases hcr : cfg.regex with _ | rgx
  · unfold command at h
    rw [hcr] at h
    simp at h
  · obtain ⟨ho, _, hnone⟩ := command_ok cfg rgx inputs wid fenv res hcr h
    have hsplit : runLoop cfg.mount_disk_images fenv inputs 0 (initState ["grep", "-aEi", rgx]) =
        ((runLoop cfg.mount_disk_images fenv inputs 0 (initState ["grep", "-aEi", rgx])).1, none) := by
      rw [← hnone]
    have houts := runLoop_none_outputs cfg.mount_disk_images fenv inputs 0
      (initState ["grep", "-aEi", rgx]) _ hsplit
    have h1 : res.output_files = expectedOutputs cfg.mount_disk_images fenv inputs 0 := by
      rw [ho, houts]
      rfl
    refine ⟨h1, ?_, ?_⟩
    · rw [h1, expectedOutputs_length]
    · rw [h1, expectedOutputs_length]
      exact successCount_le _ _ _ _

/-- C4 (witness): one plain input file that succeeds yields exactly one
entry named "a.txt.grep". -/
theorem C4_result_outputs_witness :
    (⟨[⟨"/out/1", "a.txt.grep"⟩], "wf", "grep -aEi [a-f][0-9]+"⟩ : TaskResult).output_files =
      expectedOutputs cfgFalse.mount_disk_images fenvOkTxt [txtFile] 0 ∧
    (⟨[⟨"/out/1", "a.txt.grep"⟩], "wf", "grep -aEi [a-f][0-9]+"⟩ : TaskResult).output_files.length =
      successCount cfgFalse.mount_disk_images fenvOkTxt [txtFile] 0 ∧
    (⟨[⟨"/out/1", "a.txt.grep"⟩], "wf", "grep -aEi [a-f][0-9]+"⟩ : TaskResult).output_files.length ≤
      [txtFile].length :=
  C4_result_outputs cfgFalse [txtFile] "wf" fenvOkTxt
    ⟨[⟨"/out/1", "a.txt.grep"⟩], "wf", "grep -aEi [a-f][0-9]+"⟩ rfl

/-- C5: for every invocation with a configured regex that returns a result,
the recorded command string is the space-join of the original base command —
it contains the regex verbatim (as a suffix) and is the same regardless of
the input files, of the environments, and of whether any disk image was
mounted (the string is computed at line 98, before the loop can mutate
`base_command`). -/
theorem C5_command_string (cfg : TaskConfig) (rgx : String) (inputs : List InputFile)
    (wid : String) (fenv : Nat → FileEnv) (res : TaskResult)
    (hr : cfg.regex = some rgx)
    (h : (command cfg inputs wid fenv).2 = Except.ok res) :
    res.command = "grep -aEi " ++ rgx ∧
    (∃ pre, res.command = pre ++ rgx) ∧
    ∀ (inputs2 : List InputFile) (wid2 : String) (fenv2 : Nat → FileEnv) (res2 : TaskResult),
      (command cfg inputs2 wid2 fenv2).2 = Except.ok res2 → res2.command = res.command := by
  have h1 := (command_ok cfg rgx inputs wid fenv res hr h).2.1
  have hjoin : pyJoinStrings " " ["grep", "-aEi", rgx] = "grep -aEi " ++ rgx := rfl
  refine ⟨by rw [h1, hjoin], ⟨"grep -aEi ", by rw [h1, hjoin]⟩, ?_⟩
  intro inputs2 wid2 fenv2 res2 h2
  rw [(command_ok cfg rgx inputs2 wid2 fenv2 res2 hr h2).2.1, h1]

/-- C5 (witness): a concrete run with regex "[a-f][0-9]+" records the
command string "grep -aEi [a-f][0-9]+", which carries the regex verbatim. -/
theorem C5_command_string_witness :
    (⟨[], "wf", "grep -aEi [a-f][0-9]+"⟩ : TaskResult).command = "grep -aEi " ++ "[a-f][0-9]+" :=
  (C5_command_string cfgFalse "[a-f][0-9]+" [] "wf" fenvOkTxt
    ⟨[], "wf", "grep -aEi [a-f][0-9]+"⟩ rfl rfl).1

/-- C6: at every progress tick the reported rate equals
floor(matches / elapsed_seconds) when elapsed_seconds is positive (the
quotient is nonnegative, so Python's truncating `int()` is the floor), and
is exactly 0 when elapsed_seconds is 0: the division is guarded and never
executed at 0. -/
theorem C6_rate_floor (m : Nat) (s : ℚ) :
    (0 < s → rate m s = ⌊(m : ℚ) / s⌋) ∧ (s = 0 → rate m s = 0) := by
  constructor
  · intro hs
    unfold rate pyInt
    rw [if_pos hs, if_pos (div_nonneg (Nat.cast_nonneg m) hs.le)]
  · intro hs
    subst hs
    simp [rate]

/-- C6 (witness): 7 matches over 2 seconds report floor(7/2); 7 matches at
elapsed 0 report 0. -/
theorem C6_rate_floor_witness : rate 7 2 = ⌊(7 : ℚ) / 2⌋ ∧ rate 7 0 = 0 :=
  ⟨(C6_rate_floor 7 2).1 (by norm_num), (C6_rate_floor 7 0).2 rfl⟩

/-- C7: for a child process whose exit status becomes available at poll `k`
(`pollTrace k code`), the polling loop returns that status, performs exactly
`k` progress emissions, every emission happens at a tick where the status
was not yet available, the poll right after the last emission is the first
at which the status is available (the loop exits exactly then), and the
emitted events are exactly the `superviseEvents` of the per-tick samples —
so no progress event is emitted after the process has exited. -/
theorem C7_loop_termination (k : Nat) (code : Int) (counts : Nat → Nat) (clock : Nat → ℚ)
    (fuel : Nat) (hfuel : k < fuel) :
    (superviseLoop (pollTrace k code) counts clock fuel 0).2 = some code ∧
    (superviseLoop (pollTrace k code) counts clock fuel 0).1.length = k ∧
    (∀ j, j < k → pollTrace k code j = none) ∧
    pollTrace k code k = some code ∧
    (superviseLoop (pollTrace k code) counts clock fuel 0).1 =
      superviseEvents ((tickIndices 0 k).map fun j => (counts j, clock j)) := by
  have h := superviseLoop_pollTrace code counts clock k 0 fuel hfuel
  rw [Nat.zero_add] at h
  refine ⟨by rw [h], ?_, ?_, ?_, by rw [h]⟩
  · rw [h]
    simp [superviseEvents, tickIndices_length]
  · intro j hj
    simp [pollTrace, hj]
  · simp [pollTrace]

/-- C7 (witness): a child running for 2 polls yields exactly 2 events, both
emitted while its status was unavailable, and the loop exits at poll 2. -/
theorem C7_loop_termination_witness :
    (superviseLoop (pollTrace 2 0) (fun j => j) (fun _ => (1 : ℚ)) 3 0).2 = some 0 ∧
    (superviseLoop (pollTrace 2 0) (fun j => j) (fun _ => (1 : ℚ)) 3 0).1.length = 2 ∧
    (∀ j, j < 2 → pollTrace 2 0 j = none) ∧
    pollTrace 2 0 2 = some 0 ∧
    (superviseLoop (pollTrace 2 0) (fun j => j) (fun _ => (1 : ℚ)) 3 0).1 =
      superviseEvents ((tickIndices 0 2).map fun j => (j, (1 : ℚ))) :=
  C7_loop_termination 2 0 (fun j => j) (fun _ => 1) 3 (by norm_num)

/-- C8 (counterexample): the claim states that EVERY invocation producing
zero output files logs the condition and returns a successful empty result
rather than raising.  But an invocation whose only input fails to spawn with
an OSError produces zero output files and raises, and the informational
message is never logged. -/
theorem C8_counterexample :
    (command cfgFalse [txtFile] "wf" fenvSpawnFail).1.output_files = [] ∧
    (command cfgFalse [txtFile] "wf" fenvSpawnFail).2 =
      Except.error (PyExn.osError "FileNotFoundError: grep") ∧
    LogMsg.info "openrelik-worker-grep task yielded no results!" ∉
      (command cfgFalse [txtFile] "wf" fenvSpawnFail).1.logs := by
  refine ⟨rfl, rfl, ?_⟩
  have hlogs : (command cfgFalse [txtFile] "wf" fenvSpawnFail).1.logs = [] := rfl
  rw [hlogs]
  simp

/-- C8 (amended): for every invocation whose per-input-file loop completes
without an uncaught exception and which produced zero output files
(including the empty input list), the task logs the informational message
and returns a successful result with an empty output list. -/
theorem C8_empty_result_policy (cfg : TaskConfig) (rgx : String) (inputs : List InputFile)
    (wid : String) (fenv : Nat → FileEnv)
    (hr : cfg.regex = some rgx)
    (hloop : (runLoop cfg.mount_disk_images fenv inputs 0 (initState ["grep", "-aEi", rgx])).2 = none)
    (hempty : (runLoop cfg.mount_disk_images fenv inputs 0 (initState ["grep", "-aEi", rgx])).1.output_files = []) :
    (command cfg inputs wid fenv).2 =
      Except.ok ⟨[], wid, pyJoinStrings " " ["grep", "-aEi", rgx]⟩ ∧
    LogMsg.info "openrelik-worker-grep task yielded no results!" ∈
      (command cfg inputs wid fenv).1.logs := by
  unfold command
  rw [hr]
  simp only
  rcases hrl : runLoop cfg.mount_disk_images fenv inputs 0 (initState ["grep", "-aEi", rgx]) with ⟨st, ex⟩
  rw [hrl] at hloop hempty
  replace hloop : ex = none := hloop
  replace hempty : st.output_files = [] := hempty
  subst hloop
  simp only [hempty, List.isEmpty_nil, if_pos]
  constructor
  · simp [hempty]
  · simp

/-- C8 (witness): the empty input list returns a success with an empty
output list and logs the informational message. -/
theorem C8_empty_result_policy_witness :
    (command cfgFalse [] "wf" fenvOkTxt).2 =
      Except.ok ⟨[], "wf", pyJoinStrings " " ["grep", "-aEi", "[a-f][0-9]+"]⟩ ∧
    LogMsg.info "openrelik-worker-grep task yielded no results!" ∈
      (command cfgFalse [] "wf" fenvOkTxt).1.logs :=
  C8_empty_result_policy cfgFalse "[a-f][0-9]+" [] "wf" fenvOkTxt rfl rfl rfl

/-- C9 (counterexample): the claim states that a missing regex key surfaces
as a lookup failure on the configuration mapping.  But `dict.get` returns
`None` without raising; the failure actually surfaces as the `TypeError`
raised by `" ".join` on the `None` item, never as a `KeyError`. -/
theorem C9_counterexample :
    (command cfgNoRegex [txtFile] "wf" fenvOkTxt).2 = Except.error (PyExn.typeError joinMsg) ∧
    ¬ ∃ k, (command cfgNoRegex [txtFile] "wf" fenvOkTxt).2 = Except.error (PyExn.keyError k) := by
  refine ⟨rfl, ?_⟩
  rintro ⟨k, hk⟩
  rw [show (command cfgNoRegex [txtFile] "wf" fenvOkTxt).2 =
      Except.error (PyExn.typeError joinMsg) from rfl] at hk
  simp at hk

/-- C9 (amended): if the required regex key is absent, the invocation fails
before any input file is processed — no output entry, no Popen call, no
device tracked or unmounted — but the failure surfaces as the `TypeError` of
the command-string join, not as a lookup failure on the configuration
mapping. -/
theorem C9_missing_regex (cfg : TaskConfig) (inputs : List InputFile) (wid : String)
    (fenv : Nat → FileEnv) (h : cfg.regex = none) :
    (command cfg inputs wid fenv).2 = Except.error (PyExn.typeError joinMsg) ∧
    (command cfg inputs wid fenv).1.output_files = [] ∧
    (command cfg inputs wid fenv).1.spawned = [] ∧
    (command cfg inputs wid fenv).1.disks_mounted = [] ∧
    (command cfg inputs wid fenv).1.umounts = [] := by
  unfold command
  rw [h]
  exact ⟨rfl, rfl, rfl, rfl, rfl⟩

/-- C9 (witness): a concrete configuration without the regex key fails with
the join TypeError before touching the input file. -/
theorem C9_missing_regex_witness :
    (command cfgNoRegex [txtFile2] "wf" fenvC3).2 = Except.error (PyExn.typeError joinMsg) ∧
    (command cfgNoRegex [txtFile2] "wf" fenvC3).1.output_files = [] ∧
    (command cfgNoRegex [txtFile2] "wf" fenvC3).1.spawned = [] ∧
    (command cfgNoRegex [txtFile2] "wf" fenvC3).1.disks_mounted = [] ∧
    (command cfgNoRegex [txtFile2] "wf" fenvC3).1.umounts = [] :=
  C9_missing_regex cfgNoRegex [txtFile2] "wf" fenvC3 rfl

/-- C10: the child's exit status is never inspected — the poll result is
only compared with `None` — so the entire invocation (its result and every
observable side effect, including the appended output entries) is unchanged
when every child's exit code is replaced arbitrarily; in particular an input
whose search finds nothing (grep exiting 1) still yields its output entry. -/
theorem C10_exit_status_ignored (cfg : TaskConfig) (inputs : List InputFile) (wid : String)
    (fenv : Nat → FileEnv) (g : Nat → Int) :
    command cfg inputs wid (fun i => { fenv i with exitCode := g i }) =
      command cfg inputs wid fenv := by
  unfold command
  rcases hcr : cfg.regex with _ | rgx
  · rfl
  · simp only [runLoop_exitCode]

end Grep
